import Mathlib

/-
Verification of install.py, a utility that appends a PATH export line for a
local tools directory to the user's shell rc file.

The embedding models:
  - get_shell_and_rc_file : shell detection and rc-file resolution
  - create_path_export_line : the export/set line formatter
  - path_already_added : the idempotency check (Python substring test)
  - show_diff : the diff preview with its two temporary files
  - main : the orchestration, with filesystem effects made explicit

Filesystem state is explicit: the rc file is `Option String` (None when the
file does not exist).  Fallible OS calls (read_text, mkdir, write_text) and
the diff subprocess are driven by explicit fault/outcome inputs; an exception
the Python code does not catch is modelled as a `crash` result.
-/

namespace Install

/-- Splitting a character list on a separator character (used to model
Python pathlib's decomposition of a path into components). -/
def splitOnChar (c : Char) : List Char → List (List Char)
  | [] => [[]]
  | x :: xs =>
    let r := splitOnChar c xs
    if x = c then [] :: r
    else
      match r with
      | [] => [[x]]
      | h :: t => (x :: h) :: t

/-- Python `Path(p).name`: the final nonempty path component. -/
def path_name (p : String) : String :=
  String.mk (((splitOnChar '/' p.data).filter (fun c => c ≠ [])).getLastD [])

/-- The rc_files dictionary of get_shell_and_rc_file (install.py lines 21-27). -/
def rc_files (home : String) : List (String × String) :=
  [("bash", home ++ "/.bashrc"),
   ("zsh", home ++ "/.zshrc"),
   ("fish", home ++ "/.config/fish/config.fish"),
   ("tcsh", home ++ "/.tcshrc"),
   ("csh", home ++ "/.cshrc")]

/-- Python `rc_files.get(shell_name, home / '.bashrc')` (install.py line 29). -/
def get_rc_file (home shell_name : String) : String :=
  ((rc_files home).lookup shell_name).getD (home ++ "/.bashrc")

/-- install.py get_shell_and_rc_file: env SHELL (default /bin/bash), its
basename, and the resolved rc file. -/
def get_shell_and_rc_file (env_shell : Option String) (home : String) :
    String × String :=
  let shell := env_shell.getD "/bin/bash"
  let shell_name := path_name shell
  (shell_name, get_rc_file home shell_name)

/-- install.py create_path_export_line (lines 41-46). -/
def create_path_export_line (shell_name tools_path : String) : String :=
  if shell_name = "fish" then
    "set -gx PATH \"" ++ tools_path ++ "\" $PATH\n"
  else
    "export PATH=\"" ++ tools_path ++ ":$PATH\"\n"

/-- Python `sub in content` on strings: substring containment. -/
def strContains (content sub : String) : Bool :=
  decide (sub.data <:+: content.data)

/-- install.py path_already_added (lines 49-55), on the explicit rc state:
false when the rc file does not exist, otherwise the substring test.  The
function is read-only: it takes no state to a new state. -/
def path_already_added (rc : Option String) (tools_path : String) : Bool :=
  match rc with
  | none => false
  | some content => strContains content tools_path

/-- Python `s.endswith('\n')`. -/
def endswith_newline (s : String) : Bool := s.data.getLast? = some '\n'

/-- The new-content computation of main (install.py lines 151-154):
`if original_content and not original_content.endswith('\n')`. -/
def propose_content (original export_line : String) : String :=
  if original ≠ "" ∧ endswith_newline original = false then
    original ++ "\n" ++ export_line
  else
    original ++ export_line

/-- Python `s.splitlines()` for newline-separated text: split on the newline
character, dropping a final empty piece. -/
def splitlines (s : String) : List String :=
  let parts := (splitOnChar '\n' s.data).map String.mk
  if parts.getLast? = some "" then parts.dropLast else parts

/-- Outcome of the `diff` subprocess invocation inside show_diff:
the tool ran and produced stdout, the tool was absent (FileNotFoundError),
or some other exception was raised by the attempt. -/
inductive DiffOutcome where
  | ran (stdout : String)
  | toolMissing
  | raised
deriving DecidableEq

/-- The two temporary files used by show_diff: whether each currently exists
on disk. -/
structure TempFS where
  origExists : Bool
  newExists : Bool
deriving DecidableEq

/-- A temporary-file filesystem action performed by show_diff. -/
inductive TempEvent where
  | createOrig
  | createNew
  | unlinkOrig
  | unlinkNew
deriving DecidableEq

/-- Effect of a single temporary-file action on the temp-file state. -/
def applyTempEvent (t : TempFS) : TempEvent → TempFS
  | .createOrig => { t with origExists := true }
  | .createNew => { t with newExists := true }
  | .unlinkOrig => { t with origExists := false }
  | .unlinkNew => { t with newExists := false }

/-- Running a sequence of temporary-file actions. -/
def runTempEvents (t : TempFS) (es : List TempEvent) : TempFS :=
  es.foldl applyTempEvent t

/-- The fallback diff hunk printed when the diff tool is absent
(install.py lines 89-95). -/
def fallback_hunk (original_content new_content : String) : List String :=
  let orig_lines := splitlines original_content
  let new_lines := splitlines new_content
  if orig_lines.length < new_lines.length then
    ("@@ -" ++ toString orig_lines.length ++ ",0 +" ++
        toString orig_lines.length ++ ",1 @@") ::
      (new_lines.drop orig_lines.length).map (fun l => "+" ++ l)
  else []

/-- install.py show_diff (lines 58-99).  Returns the printed output
(`none` when an uncaught exception propagates out of the function) paired
with the trace of temporary-file actions: both temp files are created and
written before the try block, and the finally block unlinks both on every
path. -/
def show_diff (original_content new_content rc_file : String)
    (outcome : DiffOutcome) : Option (List String) × List TempEvent :=
  let created : List TempEvent := [.createOrig, .createNew]
  match outcome with
  | .ran stdout =>
    let out :=
      if stdout ≠ "" then ["Changes to be made:", stdout]
      else ["No changes detected."]
    (some out, created ++ [.unlinkOrig, .unlinkNew])
  | .toolMissing =>
    (some (["Changes to be made:",
            "--- " ++ rc_file ++ " (original)",
            "+++ " ++ rc_file ++ " (modified)"] ++
           fallback_hunk original_content new_content),
     created ++ [.unlinkOrig, .unlinkNew])
  | .raised =>
    (none, created ++ [.unlinkOrig, .unlinkNew])

/-- Command-line arguments of install.py. -/
structure Args where
  yes : Bool
  dry_run : Bool
deriving DecidableEq

/-- The filesystem state main interacts with: the content of the resolved rc
file (`none` when the file does not exist) and whether the tools directory
exists. -/
structure FS where
  rc : Option String
  tools_dir_exists : Bool
deriving DecidableEq

/-- The interactive answers the user would give at the two prompts. -/
structure UserInput where
  continue_anyway : Bool
  apply_changes : Bool
deriving DecidableEq

/-- Which fallible OS calls raise during the run: reading the rc file,
creating its parent directory, and writing it.  `write_error_msg` is the
message of the write exception. -/
structure Faults where
  read_fails : Bool
  mkdir_fails : Bool
  write_fails : Bool
  write_error_msg : String
deriving DecidableEq

/-- Result of a run of main: a normal return with an exit code, the printed
log and the final filesystem state, or a crash by an exception the code does
not catch (the filesystem state at the point of the crash is retained). -/
inductive RunResult where
  | exit (code : Nat) (log : List String) (fs : FS)
  | crash (log : List String) (fs : FS)
deriving DecidableEq

/-- The exit code of a run, `none` when the run crashed. -/
def exitCode : RunResult → Option Nat
  | .exit c _ _ => some c
  | .crash _ _ => none

/-- Whether the run returned normally. -/
def isExit : RunResult → Bool
  | .exit _ _ _ => true
  | .crash _ _ => false

/-- The filesystem state when the run ended. -/
def finalFS : RunResult → FS
  | .exit _ _ fs => fs
  | .crash _ fs => fs

/-- The printed log of the run. -/
def logOf : RunResult → List String
  | .exit _ log _ => log
  | .crash log _ => log

/-- install.py main (lines 102-188), with the filesystem, the prompts, the
fallible OS calls and the diff subprocess made explicit.  Mirrors the source
order: tools-directory check, idempotency check (an rc read error there is
uncaught), rc read, content proposal, diff preview (an exception from the
diff step other than FileNotFoundError is uncaught), dry-run exit,
confirmation, parent mkdir (an error there is uncaught), and the write, whose
exception alone is caught and turned into exit code 1. -/
def main (args : Args) (env_shell : Option String) (home tools_path : String)
    (fs : FS) (user : UserInput) (faults : Faults)
    (diff_outcome : DiffOutcome) : RunResult :=
  let sp := get_shell_and_rc_file env_shell home
  let shell_name := sp.1
  let rc_file := sp.2
  let log0 := ["Detected shell: " ++ shell_name,
               "RC file: " ++ rc_file,
               "Tools directory: " ++ tools_path]
  let log1 := log0 ++
    (if fs.tools_dir_exists = false then
      ["Warning: Tools directory does not exist."] else [])
  if fs.tools_dir_exists = false ∧ args.yes = false ∧
      user.continue_anyway = false then
    .exit 1 (log1 ++ ["Aborted."]) fs
  else if fs.rc.isSome ∧ faults.read_fails then
    -- path_already_added reads the rc file; the read error is uncaught
    .crash log1 fs
  else if path_already_added fs.rc tools_path then
    .exit 0 (log1 ++ ["Tools path is already present in " ++ rc_file]) fs
  else
    let original_content := fs.rc.getD ""
    let log2 := log1 ++
      (if fs.rc.isNone then
        ["RC file " ++ rc_file ++ " does not exist. It will be created."]
      else [])
    let export_line := create_path_export_line shell_name tools_path
    let new_content := propose_content original_content export_line
    match (show_diff original_content new_content rc_file diff_outcome).1 with
    | none => .crash log2 fs
    | some diff_out =>
      let log3 := log2 ++ diff_out
      if args.dry_run then
        .exit 0 (log3 ++ ["Dry run mode: no changes were made."]) fs
      else if args.yes = false ∧ user.apply_changes = false then
        .exit 0 (log3 ++ ["Aborted."]) fs
      else if faults.mkdir_fails then
        -- rc_file.parent.mkdir is outside the try block: uncaught
        .crash log3 fs
      else if faults.write_fails then
        .exit 1 (log3 ++ ["Error writing to " ++ rc_file ++ ": " ++
          faults.write_error_msg]) fs
      else
        .exit 0 (log3 ++ ["Successfully updated " ++ rc_file])
          { fs with rc := some new_content }

/- Helper lemmas -/

/-- Substring containment is preserved by prepending text. -/
lemma strContains_append_left (a b sub : String)
    (h : strContains b sub = true) : strContains (a ++ b) sub = true := by
  unfold strContains at h ⊢
  rw [decide_eq_true_iff] at h ⊢
  obtain ⟨s, t, hst⟩ := h
  exact ⟨a.data ++ s, t, by
    rw [String.data_append]
    rw [← hst]
    simp [List.append_assoc]⟩

/-- The formatter's output always contains the tools path as a substring,
for either shell family. -/
lemma export_line_contains (shell_name tools_path : String) :
    strContains (create_path_export_line shell_name tools_path)
      tools_path = true := by
  unfold create_path_export_line strContains
  rw [decide_eq_true_iff]
  split
  · exact ⟨"set -gx PATH \"".data, "\" $PATH\n".data, by
      simp [List.append_assoc]⟩
  · exact ⟨"export PATH=\"".data, ":$PATH\"\n".data, by
      simp [List.append_assoc]⟩

/-- The proposed content always contains the export line's substrings:
containment in the export line lifts to the proposed content. -/
lemma propose_content_contains (original export_line sub : String)
    (h : strContains export_line sub = true) :
    strContains (propose_content original export_line) sub = true := by
  unfold propose_content
  split
  · rw [String.append_assoc]
    exact strContains_append_left _ _ _ (strContains_append_left _ _ _ h)
  · exact strContains_append_left _ _ _ h

/-- A string ending in a newline stays so after prepending text. -/
lemma endswith_newline_append (s t : String)
    (h : endswith_newline t = true) : endswith_newline (s ++ t) = true := by
  unfold endswith_newline at h ⊢
  rw [decide_eq_true_iff] at h ⊢
  rw [String.data_append]
  cases ht : t.data with
  | nil => rw [ht] at h; simp at h
  | cons c cs =>
    rw [ht] at h
    rw [List.getLast?_append, h]
    rfl

/- Claim theorems -/

/-- C3: the Resolver returns the documented fixed rc path for each
recognized family (bash, zsh, fish, tcsh, csh), returns the bash file for
every unrecognized shell name, and never fails (it is a total function). -/
theorem resolver_rc_paths (home : String) :
    get_rc_file home "bash" = home ++ "/.bashrc" ∧
    get_rc_file home "zsh" = home ++ "/.zshrc" ∧
    get_rc_file home "fish" = home ++ "/.config/fish/config.fish" ∧
    get_rc_file home "tcsh" = home ++ "/.tcshrc" ∧
    get_rc_file home "csh" = home ++ "/.cshrc" ∧
    ∀ s : String, s ∉ (["bash", "zsh", "fish", "tcsh", "csh"] : List String) →
      get_rc_file home s = home ++ "/.bashrc" := by
  refine ⟨rfl, rfl, rfl, rfl, rfl, fun s hs => ?_⟩
  simp only [List.mem_cons, List.not_mem_nil, or_false, not_or] at hs
  obtain ⟨h1, h2, h3, h4, h5⟩ := hs
  have e1 : (s == "bash") = false := beq_eq_false_iff_ne.mpr h1
  have e2 : (s == "zsh") = false := beq_eq_false_iff_ne.mpr h2
  have e3 : (s == "fish") = false := beq_eq_false_iff_ne.mpr h3
  have e4 : (s == "tcsh") = false := beq_eq_false_iff_ne.mpr h4
  have e5 : (s == "csh") = false := beq_eq_false_iff_ne.mpr h5
  simp [get_rc_file, rc_files, List.lookup, e1, e2, e3, e4, e5]

/-- Witness for resolver_rc_paths at the unrecognized shell name ksh. -/
theorem resolver_rc_paths_witness :
    get_rc_file "/home/u" "ksh" = "/home/u/.bashrc" :=
  (resolver_rc_paths "/home/u").2.2.2.2.2 "ksh" (by decide)

/-- C4: the Path Formatter emits the fish `set -gx` form for fish, the
POSIX export form for every other shell name, always ends its output in a
newline, and on shell fish with tools path /opt/tools returns exactly the
documented line. -/
theorem formatter_line (shell_name tools_path : String) :
    create_path_export_line "fish" tools_path =
      "set -gx PATH \"" ++ tools_path ++ "\" $PATH\n" ∧
    (shell_name ≠ "fish" →
      create_path_export_line shell_name tools_path =
        "export PATH=\"" ++ tools_path ++ ":$PATH\"\n") ∧
    endswith_newline (create_path_export_line shell_name tools_path) = true ∧
    create_path_export_line "fish" "/opt/tools" =
      "set -gx PATH \"/opt/tools\" $PATH\n" := by
  refine ⟨rfl, fun h => by simp [create_path_export_line, h], ?_, by decide⟩
  unfold create_path_export_line
  split
  · rw [String.append_assoc]
    exact endswith_newline_append _ _ (endswith_newline_append _ _ (by decide))
  · rw [String.append_assoc]
    exact endswith_newline_append _ _ (endswith_newline_append _ _ (by decide))

/-- Witness for formatter_line at the non-fish shell name bash. -/
theorem formatter_line_witness :
    create_path_export_line "bash" "/opt/tools" =
      "export PATH=\"" ++ "/opt/tools" ++ ":$PATH\"\n" :=
  (formatter_line "bash" "/opt/tools").2.1 (by decide)

/-- C10: the formatter branches only on equality with fish: csh and tcsh,
and every other non-fish shell name, all receive the POSIX export form. -/
theorem formatter_fish_only_branch (tools_path : String) :
    create_path_export_line "csh" tools_path =
      "export PATH=\"" ++ tools_path ++ ":$PATH\"\n" ∧
    create_path_export_line "tcsh" tools_path =
      "export PATH=\"" ++ tools_path ++ ":$PATH\"\n" ∧
    ∀ shell_name : String, shell_name ≠ "fish" →
      create_path_export_line shell_name tools_path =
        "export PATH=\"" ++ tools_path ++ ":$PATH\"\n" := by
  exact ⟨rfl, rfl, fun s h => by simp [create_path_export_line, h]⟩

/-- Witness for formatter_fish_only_branch at the unrecognized name dash. -/
theorem formatter_fish_only_branch_witness :
    create_path_export_line "dash" "/opt/tools" =
      "export PATH=\"" ++ "/opt/tools" ++ ":$PATH\"\n" :=
  (formatter_fish_only_branch "/opt/tools").2.2 "dash" (by decide)

/-- C5: the Idempotency Checker returns false when the rc file does not
exist and the substring test of the file's text against the tools path
otherwise; the substring test holds exactly when the tools path's
characters occur contiguously in the content.  In the embedding
path_already_added is a pure function of the rc state: it produces no new
filesystem state (read-only). -/
theorem idempotency_checker_spec (tools_path : String) :
    path_already_added none tools_path = false ∧
    (∀ content : String, path_already_added (some content) tools_path =
      strContains content tools_path) ∧
    (∀ content : String, strContains content tools_path = true ↔
      tools_path.data <:+: content.data) := by
  refine ⟨rfl, fun c => rfl, fun c => ?_⟩
  unfold strContains
  exact decide_eq_true_iff

/-- C2: the proposed content is original plus a separating newline plus the
export line when original is non-empty without a trailing newline, original
plus the export line otherwise, and in every case the original content is a
prefix of the proposed content (pure append). -/
theorem propose_append_invariant (original export_line : String) :
    (original ≠ "" → endswith_newline original = false →
      propose_content original export_line =
        original ++ "\n" ++ export_line) ∧
    ((original = "" ∨ endswith_newline original = true) →
      propose_content original export_line = original ++ export_line) ∧
    (∃ rest : String,
      propose_content original export_line = original ++ rest) := by
  refine ⟨fun h1 h2 => ?_, fun h => ?_, ?_⟩
  · unfold propose_content
    rw [if_pos ⟨h1, h2⟩]
  · unfold propose_content
    rcases h with h | h
    · rw [if_neg (by simp [h])]
    · rw [if_neg (by simp [h])]
  · unfold propose_content
    split
    · exact ⟨"\n" ++ export_line, by rw [String.append_assoc]⟩
    · exact ⟨export_line, rfl⟩

/-- Witness for propose_append_invariant: a non-empty original without a
trailing newline gets the separating newline, one with it does not. -/
theorem propose_append_invariant_witness :
    propose_content "alias x=1" "export PATH\n" =
      "alias x=1" ++ "\n" ++ "export PATH\n" ∧
    propose_content "alias x=1\n" "export PATH\n" =
      "alias x=1\n" ++ "export PATH\n" :=
  ⟨(propose_append_invariant "alias x=1" "export PATH\n").1
      (by decide) (by decide),
   (propose_append_invariant "alias x=1\n" "export PATH\n").2.1
      (Or.inr (by decide))⟩

/-- C7: the Change Previewer creates both temporary files and its trace
removes both of them on every outcome of the diff step — the subprocess
producing output, the diff tool being absent, or an exception being raised
— so from any starting temp-file state the final state has neither file. -/
theorem show_diff_temp_cleanup (original_content new_content rc_file :
    String) (outcome : DiffOutcome) :
    TempEvent.createOrig ∈
      (show_diff original_content new_content rc_file outcome).2 ∧
    TempEvent.createNew ∈
      (show_diff original_content new_content rc_file outcome).2 ∧
    ∀ t : TempFS, runTempEvents t
      (show_diff original_content new_content rc_file outcome).2 =
        ⟨false, false⟩ := by
  cases outcome
  all_goals exact ⟨by simp [show_diff], by simp [show_diff],
    fun t => by cases t; rfl⟩

/-- C6 counterexample: a --dry-run invocation with the tools directory
missing, no --yes, and the user declining to continue returns exit code 1
(install.py line 134), refuting the claim that every --dry-run run exits
with code 0. -/
theorem dry_run_exit_code_cex :
    exitCode (main ⟨false, true⟩ none "/home/u" "/opt/tools" ⟨none, false⟩
      ⟨false, false⟩ ⟨false, false, false, ""⟩ (.ran "d")) = some 1 := by
  decide

/-- C6 amended: a --dry-run run never writes the rc file (the filesystem
state is unchanged on every path), and it exits with code 0 provided it is
not aborted at the missing-tools-directory prompt and no uncaught exception
(rc read error, or a diff-step exception other than the tool being absent)
occurs. -/
theorem dry_run_no_write (args : Args) (es : Option String) (home tp : String)
    (fs : FS) (u : UserInput) (f : Faults) (d : DiffOutcome)
    (hdry : args.dry_run = true) :
    finalFS (main args es home tp fs u f d) = fs ∧
    ((fs.tools_dir_exists = true ∨ args.yes = true ∨
        u.continue_anyway = true) →
      f.read_fails = false → d ≠ DiffOutcome.raised →
      exitCode (main args es home tp fs u f d) = some 0) := by
  constructor
  · unfold main
    dsimp only
    split
    · rfl
    · split
      · rfl
      · split
        · rfl
        · cases d
          · simp [show_diff, hdry, finalFS]
          · simp [show_diff, hdry, finalFS]
          · rfl
  · intro hgate hread hd
    unfold main
    dsimp only
    rw [if_neg (by rcases hgate with h | h | h <;> simp [h])]
    rw [if_neg (by simp [hread])]
    split
    · rfl
    · cases d
      · simp [show_diff, hdry, exitCode]
      · simp [show_diff, hdry, exitCode]
      · exact absurd rfl hd

/-- Witness for dry_run_no_write: a concrete --dry-run run that leaves the
rc state untouched and exits 0. -/
theorem dry_run_no_write_witness :
    finalFS (main ⟨false, true⟩ none "/home/u" "/opt/tools" ⟨some "x", true⟩
      ⟨true, true⟩ ⟨false, false, false, ""⟩ (.ran "d")) =
      (⟨some "x", true⟩ : FS) ∧
    exitCode (main ⟨false, true⟩ none "/home/u" "/opt/tools" ⟨some "x", true⟩
      ⟨true, true⟩ ⟨false, false, false, ""⟩ (.ran "d")) = some 0 :=
  ⟨(dry_run_no_write ⟨false, true⟩ none "/home/u" "/opt/tools"
      ⟨some "x", true⟩ ⟨true, true⟩ ⟨false, false, false, ""⟩
      (.ran "d") rfl).1,
   (dry_run_no_write ⟨false, true⟩ none "/home/u" "/opt/tools"
      ⟨some "x", true⟩ ⟨true, true⟩ ⟨false, false, false, ""⟩
      (.ran "d") rfl).2 (Or.inl rfl) rfl (by decide)⟩

/-- C8: when every step up to the write succeeds but the write raises, the
run reports the underlying error message and exits with code 1, and the rc
state is unchanged (the model's write is a single whole-file replace, so a
failed write leaves the previous content intact). -/
theorem write_failure_reported (args : Args) (es : Option String)
    (home tp : String) (fs : FS) (u : UserInput) (f : Faults)
    (d : DiffOutcome)
    (hgate : fs.tools_dir_exists = true ∨ args.yes = true ∨
      u.continue_anyway = true)
    (hread : f.read_fails = false)
    (hadded : path_already_added fs.rc tp = false)
    (hd : d ≠ DiffOutcome.raised)
    (hdry : args.dry_run = false)
    (hconf : args.yes = true ∨ u.apply_changes = true)
    (hmk : f.mkdir_fails = false)
    (hw : f.write_fails = true) :
    exitCode (main args es home tp fs u f d) = some 1 ∧
    finalFS (main args es home tp fs u f d) = fs ∧
    ("Error writing to " ++ (get_shell_and_rc_file es home).2 ++ ": " ++
        f.write_error_msg) ∈ logOf (main args es home tp fs u f d) := by
  unfold main
  dsimp only
  rw [if_neg (by rcases hgate with h | h | h <;> simp [h])]
  rw [if_neg (by simp [hread])]
  rw [if_neg (by simp [hadded])]
  cases d
  case raised => exact absurd rfl hd
  all_goals
    simp only [show_diff]
    rw [if_neg (by simp [hdry])]
    rw [if_neg (by rcases hconf with h | h <;> simp [h])]
    rw [if_neg (by simp [hmk])]
    rw [if_pos hw]
    exact ⟨rfl, rfl, by simp [logOf]⟩

/-- Witness for write_failure_reported: a concrete failing write ends with
exit code 1 and the reported message. -/
theorem write_failure_reported_witness :
    exitCode (main ⟨true, false⟩ none "/home/u" "/opt/tools" ⟨none, true⟩
      ⟨true, true⟩ ⟨false, false, true, "disk full"⟩ (.ran "d")) = some 1 ∧
    ("Error writing to " ++ (get_shell_and_rc_file none "/home/u").2 ++
        ": " ++ (⟨false, false, true, "disk full"⟩ : Faults).write_error_msg)
      ∈ logOf (main ⟨true, false⟩ none "/home/u" "/opt/tools" ⟨none, true⟩
        ⟨true, true⟩ ⟨false, false, true, "disk full"⟩ (.ran "d")) :=
  ⟨(write_failure_reported ⟨true, false⟩ none "/home/u" "/opt/tools"
      ⟨none, true⟩ ⟨true, true⟩ ⟨false, false, true, "disk full"⟩ (.ran "d")
      (Or.inl rfl) rfl rfl (by decide) rfl (Or.inl rfl) rfl rfl).1,
   (write_failure_reported ⟨true, false⟩ none "/home/u" "/opt/tools"
      ⟨none, true⟩ ⟨true, true⟩ ⟨false, false, true, "disk full"⟩ (.ran "d")
      (Or.inl rfl) rfl rfl (by decide) rfl (Or.inl rfl) rfl rfl).2.2⟩

set_option maxHeartbeats 1000000 in
/-- Every run either leaves the rc content unchanged, or ends with rc
content that contains the tools path as a substring (the only write is the
proposed content, which embeds the export line). -/
lemma main_fs_cases (args : Args) (es : Option String) (home tp : String)
    (fs : FS) (u : UserInput) (f : Faults) (d : DiffOutcome) :
    (finalFS (main args es home tp fs u f d)).rc = fs.rc ∨
    ∃ nc, (finalFS (main args es home tp fs u f d)).rc = some nc ∧
      strContains nc tp = true := by
  unfold main
  dsimp only
  split
  · exact Or.inl rfl
  split
  · exact Or.inl rfl
  split
  · exact Or.inl rfl
  cases d
  case raised => exact Or.inl rfl
  all_goals
    dsimp only [show_diff]
    split
    · exact Or.inl rfl
    split
    · exact Or.inl rfl
    split
    · exact Or.inl rfl
    split
    · exact Or.inl rfl
    exact Or.inr ⟨_, rfl,
      propose_content_contains _ _ _ (export_line_contains _ _)⟩

/-- C1: rerunning after an apply that wrote the rc file is a no-op: the
second run finds the tools path already present, reports it, exits 0, and
leaves the rc content exactly as the first run left it. -/
theorem rerun_after_apply_noop (a a2 : Args) (es : Option String)
    (home tp : String) (fs fs1 : FS) (u u2 : UserInput) (f f2 : Faults)
    (d d2 : DiffOutcome)
    (hfs1 : finalFS (main a es home tp fs u f d) = fs1)
    (hwrote : fs1.rc ≠ fs.rc)
    (hread2 : f2.read_fails = false)
    (hgate2 : fs1.tools_dir_exists = true ∨ a2.yes = true ∨
      u2.continue_anyway = true) :
    exitCode (main a2 es home tp fs1 u2 f2 d2) = some 0 ∧
    finalFS (main a2 es home tp fs1 u2 f2 d2) = fs1 ∧
    ("Tools path is already present in " ++
        (get_shell_and_rc_file es home).2)
      ∈ logOf (main a2 es home tp fs1 u2 f2 d2) := by
  obtain ⟨nc, hnc, hcont⟩ :
      ∃ nc, fs1.rc = some nc ∧ strContains nc tp = true := by
    rcases main_fs_cases a es home tp fs u f d with h | ⟨nc, h1, h2⟩
    · rw [hfs1] at h
      exact absurd h hwrote
    · rw [hfs1] at h1
      exact ⟨nc, h1, h2⟩
  have hadded : path_already_added fs1.rc tp = true := by
    rw [hnc]
    exact hcont
  unfold main
  dsimp only
  rw [if_neg (by rcases hgate2 with h | h | h <;> simp [h])]
  rw [if_neg (by simp [hread2])]
  rw [if_pos hadded]
  exact ⟨rfl, rfl, by simp [logOf]⟩

/-- Witness for rerun_after_apply_noop: a concrete first run that creates
the rc file; the rerun exits 0 on the unchanged state. -/
theorem rerun_after_apply_noop_witness :
    (finalFS (main ⟨true, false⟩ none "/home/u" "/opt/tools" ⟨none, true⟩
        ⟨true, true⟩ ⟨false, false, false, ""⟩ (.ran "d"))).rc ≠
      (⟨none, true⟩ : FS).rc ∧
    exitCode (main ⟨true, false⟩ none "/home/u" "/opt/tools"
      (finalFS (main ⟨true, false⟩ none "/home/u" "/opt/tools" ⟨none, true⟩
        ⟨true, true⟩ ⟨false, false, false, ""⟩ (.ran "d")))
      ⟨true, true⟩ ⟨false, false, false, ""⟩ (.ran "d")) = some 0 :=
  ⟨by decide,
   (rerun_after_apply_noop ⟨true, false⟩ ⟨true, false⟩ none "/home/u"
      "/opt/tools" ⟨none, true⟩ _ ⟨true, true⟩ ⟨true, true⟩
      ⟨false, false, false, ""⟩ ⟨false, false, false, ""⟩
      (.ran "d") (.ran "d") rfl (by decide) rfl (by decide)).1⟩

/-- C9 counterexample: an rc read error (the rc file exists and read_text
raises) is not caught anywhere in main, so the run crashes instead of
returning an exit code, refuting the claim that all failures are caught at
the outermost orchestration level. -/
theorem read_error_uncaught_cex :
    exitCode (main ⟨true, false⟩ none "/home/u" "/opt/tools" ⟨some "x", true⟩
      ⟨true, true⟩ ⟨true, false, false, ""⟩ (.ran "d")) = none := by
  decide

/-- C9 amended: only the rc write is guarded by a try/except: a write error
is reported and converted to exit code 1, while a filesystem error raised
when reading the rc file or when creating its parent directory propagates
as an unhandled exception and crashes the run. -/
theorem error_propagation_amended (args : Args) (es : Option String)
    (home tp : String) (fs : FS) (u : UserInput) (f : Faults)
    (d : DiffOutcome) :
    ((fs.tools_dir_exists = true ∨ args.yes = true ∨
        u.continue_anyway = true) →
      fs.rc.isSome = true → f.read_fails = true →
      isExit (main args es home tp fs u f d) = false) ∧
    ((fs.tools_dir_exists = true ∨ args.yes = true ∨
        u.continue_anyway = true) →
      f.read_fails = false → path_already_added fs.rc tp = false →
      d ≠ DiffOutcome.raised → args.dry_run = false →
      (args.yes = true ∨ u.apply_changes = true) → f.mkdir_fails = true →
      isExit (main args es home tp fs u f d) = false) ∧
    ((fs.tools_dir_exists = true ∨ args.yes = true ∨
        u.continue_anyway = true) →
      f.read_fails = false → path_already_added fs.rc tp = false →
      d ≠ DiffOutcome.raised → args.dry_run = false →
      (args.yes = true ∨ u.apply_changes = true) → f.mkdir_fails = false →
      f.write_fails = true →
      exitCode (main args es home tp fs u f d) = some 1 ∧
      finalFS (main args es home tp fs u f d) = fs) := by
  refine ⟨fun hgate hrc hread => ?_,
    fun hgate hread hadded hd hdry hconf hmk => ?_,
    fun hgate hread hadded hd hdry hconf hmk hw => ?_⟩
  · unfold main
    dsimp only
    rw [if_neg (by rcases hgate with h | h | h <;> simp [h])]
    rw [if_pos ⟨hrc, hread⟩]
    rfl
  · unfold main
    dsimp only
    rw [if_neg (by rcases hgate with h | h | h <;> simp [h])]
    rw [if_neg (by simp [hread])]
    rw [if_neg (by simp [hadded])]
    cases d
    case raised => exact absurd rfl hd
    all_goals
      dsimp only [show_diff]
      rw [if_neg (by simp [hdry])]
      rw [if_neg (by rcases hconf with h | h <;> simp [h])]
      rw [if_pos hmk]
      rfl
  · unfold main
    dsimp only
    rw [if_neg (by rcases hgate with h | h | h <;> simp [h])]
    rw [if_neg (by simp [hread])]
    rw [if_neg (by simp [hadded])]
    cases d
    case raised => exact absurd rfl hd
    all_goals
      dsimp only [show_diff]
      rw [if_neg (by simp [hdry])]
      rw [if_neg (by rcases hconf with h | h <;> simp [h])]
      rw [if_neg (by simp [hmk])]
      rw [if_pos hw]
      exact ⟨rfl, rfl⟩

/-- Witness for error_propagation_amended: a concrete read error crashes
the run, while a concrete write error is converted to exit code 1. -/
theorem error_propagation_amended_witness :
    isExit (main ⟨true, false⟩ none "/home/u" "/opt/tools" ⟨some "y", true⟩
      ⟨true, true⟩ ⟨true, false, false, ""⟩ (.ran "d")) = false ∧
    exitCode (main ⟨true, false⟩ none "/home/u" "/opt/tools" ⟨none, true⟩
      ⟨true, true⟩ ⟨false, false, true, "boom"⟩ (.ran "d")) = some 1 :=
  ⟨(error_propagation_amended ⟨true, false⟩ none "/home/u" "/opt/tools"
      ⟨some "y", true⟩ ⟨true, true⟩ ⟨true, false, false, ""⟩ (.ran "d")).1
      (Or.inl rfl) rfl rfl,
   ((error_propagation_amended ⟨true, false⟩ none "/home/u" "/opt/tools"
      ⟨none, true⟩ ⟨true, true⟩ ⟨false, false, true, "boom"⟩ (.ran "d")).2.2
      (Or.inl rfl) rfl rfl (by decide) rfl (Or.inl rfl) rfl rfl).1⟩

end Install
